import Mathlib

/-!
Verification of the btrfs-manager state-aggregation and mutation layer
(src/btrfs-manager.py).  The Python string and subprocess primitives are
embedded as pure Lean functions; each collector and API action of the
source is translated into an executable definition, and the claims about
the program are settled as theorems below the definitions.
-/

/-- Whitespace set of Python str.strip and str.split (ASCII subset used by
the tool output this program parses). -/
def isPyWs (c : Char) : Bool :=
  c = ' ' || c = '\t' || c = '\n' || c = '\r' || c = '\x0b' || c = '\x0c'

/-- Removal of leading and trailing characters satisfying p, as Python
str.strip does. -/
def pyStripList (p : Char → Bool) (cs : List Char) : List Char :=
  ((cs.dropWhile p).reverse.dropWhile p).reverse

/-- Python str.strip with no argument: trims whitespace on both ends. -/
def pyStrip (s : String) : String :=
  String.mk (pyStripList isPyWs s.toList)

/-- Python str.strip with a single-character argument, e.g. strip of the
single-quote characters around a filesystem label. -/
def pyStripChar (q : Char) (s : String) : String :=
  String.mk (pyStripList (fun c => c = q) s.toList)

/-- Python str.upper restricted to the character-by-character case map. -/
def pyUpper (s : String) : String :=
  String.mk (s.toList.map Char.toUpper)

/-- Helper of pySplitChar: accumulates the current piece (reversed). -/
def pySplitCharAux (c : Char) : List Char → List Char → List String
  | [], acc => [String.mk acc.reverse]
  | x :: xs, acc =>
    if x = c then String.mk acc.reverse :: pySplitCharAux c xs []
    else pySplitCharAux c xs (x :: acc)

/-- Python str.split with a one-character separator (the two separators
this program uses are the newline and the pipe): splits at every
occurrence, keeping empty pieces, so the empty string yields one empty
piece. -/
def pySplitChar (c : Char) (s : String) : List String :=
  pySplitCharAux c s.toList []

/-- Helper of pySplitWs: accumulates the current word (reversed) while
scanning the character list. -/
def pySplitWsAux : List Char → List Char → List String
  | [], acc => if acc.isEmpty then [] else [String.mk acc.reverse]
  | c :: cs, acc =>
    if isPyWs c then
      if acc.isEmpty then pySplitWsAux cs []
      else String.mk acc.reverse :: pySplitWsAux cs []
    else pySplitWsAux cs (c :: acc)

/-- Python str.split with no argument: splits on whitespace runs and never
yields empty words. -/
def pySplitWs (s : String) : List String :=
  pySplitWsAux s.toList []

/-- Python str.startswith, via list prefix testing. -/
def pyStartsWith (s pat : String) : Bool :=
  List.isPrefixOf pat.toList s.toList

/-- Python str.endswith, via list suffix testing. -/
def pyEndsWith (s pat : String) : Bool :=
  List.isSuffixOf pat.toList s.toList

/-- Helper of pyContains: pat occurs as a prefix of some suffix of the
list. -/
def listContainsAux (pat : List Char) : List Char → Bool
  | [] => List.isPrefixOf pat []
  | c :: cs => List.isPrefixOf pat (c :: cs) || listContainsAux pat cs

/-- Python substring membership test, the `pat in s` expression. -/
def pyContains (s pat : String) : Bool :=
  listContainsAux pat.toList s.toList

/-- Python string slice s[:n]. -/
def pyTake (n : Nat) (s : String) : String :=
  String.mk (s.toList.take n)

/-- Outcome of spawning one external command: its exit status and captured
output streams, as subprocess.run(..., capture_output=True) reports them. -/
structure CmdResult where
  returncode : Int
  stdout : String
  stderr : String
deriving DecidableEq, Repr

/-- The exception subprocess.run raises when check=True and the command
exits non-zero; it carries the exit status and both captured streams. -/
structure CalledProcessError where
  returncode : Int
  stdout : String
  stderr : String
deriving DecidableEq, Repr

/-- subprocess.run(cmd, shell=True, capture_output=True, text=True,
check=True): returns the completed process on exit status zero and raises
CalledProcessError otherwise. -/
def subprocessRunCheck (r : CmdResult) : Except CalledProcessError CmdResult :=
  if r.returncode = 0 then .ok r else .error ⟨r.returncode, r.stdout, r.stderr⟩

/-- run_command of btrfs-manager.py: runs the command with check=True,
returns stripped stdout on success, and catches CalledProcessError on a
non-zero exit, returning the string "Error: " followed by stderr. -/
def run_command (r : CmdResult) : String :=
  match subprocessRunCheck r with
  | .ok res => pyStrip res.stdout
  | .error e => ("Error: ") ++ e.stderr

/-- Value classes a CPython float can take for our purposes.  A finite
value is kept as an exact (unnormalized) fraction num/den: the inputs
settled below are all dyadic values on which binary double rounding is
exact, so this exact model agrees with CPython on every input any theorem
touches. -/
inductive PyFloat where
  | finite (num : Int) (den : Nat)
  | posInf
  | negInf
  | nan
deriving DecidableEq, Repr

/-- The two Python exception classes relevant to parse_size: float() raises
ValueError on a malformed literal and int() raises ValueError on nan but
OverflowError on an infinity. -/
inductive PyError where
  | valueError
  | overflowError
deriving DecidableEq, Repr

/-- Result of running a Python expression that may raise: either a value or
an uncaught exception. -/
inductive PyResult (α : Type) where
  | ok (a : α)
  | raised (e : PyError)
deriving DecidableEq, Repr

/-- Scans a digit run with CPython underscore rules (an underscore is only
allowed between digits).  Returns the accumulated value, the number of
digits consumed and the unconsumed remainder. -/
def digitRunAux : List Char → Nat → Nat → Nat × Nat × List Char
  | [], v, n => (v, n, [])
  | c :: rest, v, n =>
    if c.isDigit then digitRunAux rest (v * 10 + (c.toNat - 48)) (n + 1)
    else if c = '_' ∧ 0 < n then
      match rest with
      | [] => (v, n, c :: rest)
      | d :: _ => if d.isDigit then digitRunAux rest v n else (v, n, c :: rest)
    else (v, n, c :: rest)

/-- Mantissa of a CPython float literal: digits, optionally a point and
more digits; at least one digit overall.  The value int.frac is returned
as the exact fraction (int * 10 ^ |frac| + frac) / 10 ^ |frac|. -/
def parseMantissa (cs : List Char) : Option ((Int × Nat) × List Char) :=
  match digitRunAux cs 0 0 with
  | (iv, ni, r1) =>
    match r1 with
    | '.' :: r2 =>
      match digitRunAux r2 0 0 with
      | (fv, nf, r3) =>
        if ni = 0 ∧ nf = 0 then none
        else some ((Int.ofNat (iv * 10 ^ nf + fv), 10 ^ nf), r3)
    | _ => if ni = 0 then none else some ((Int.ofNat iv, 1), r1)

/-- Optional exponent part of a CPython float literal. -/
def parseExp : List Char → Option (Int × List Char)
  | [] => some (0, [])
  | c :: rest =>
    if c = 'e' ∨ c = 'E' then
      match rest with
      | '+' :: r1 =>
        match digitRunAux r1 0 0 with
        | (ev, ne, r2) => if ne = 0 then none else some ((ev : Int), r2)
      | '-' :: r1 =>
        match digitRunAux r1 0 0 with
        | (ev, ne, r2) => if ne = 0 then none else some (-(ev : Int), r2)
      | _ =>
        match digitRunAux rest 0 0 with
        | (ev, ne, r2) => if ne = 0 then none else some ((ev : Int), r2)
    else some (0, c :: rest)

/-- Lower-casing used to recognize the special float literals inf, infinity
and nan case-insensitively, as CPython does. -/
def pyLowerList (cs : List Char) : List Char :=
  cs.map Char.toLower

/-- Application of a decimal exponent to an exact fraction: a non-negative
exponent scales the numerator, a negative one the denominator. -/
def scaleExp (num : Int) (den : Nat) : Int → Int × Nat
  | .ofNat k => (num * (10 : Int) ^ k, den)
  | .negSucc k => (num, den * 10 ^ (k + 1))

/-- Body of float() after sign stripping: the special literals, else
mantissa and optional exponent with nothing left over. -/
def pyFloatCore (neg : Bool) (cs : List Char) : Option PyFloat :=
  let low := pyLowerList cs
  if low = ("inf").toList ∨ low = ("infinity").toList then
    some (if neg then .negInf else .posInf)
  else if low = ("nan").toList then some .nan
  else
    match parseMantissa cs with
    | none => none
    | some (m, r1) =>
      match parseExp r1 with
      | none => none
      | some (e, r2) =>
        if r2 = [] then
          match scaleExp m.1 m.2 e with
          | (num1, den1) => some (.finite (if neg then -num1 else num1) den1)
        else none

/-- CPython float(str): strips surrounding whitespace, takes an optional
sign, then parses the body; none models an uncaught ValueError. -/
def pyFloatOfString (s : String) : Option PyFloat :=
  match pyStripList isPyWs s.toList with
  | '+' :: rest => pyFloatCore false rest
  | '-' :: rest => pyFloatCore true rest
  | cs => pyFloatCore false cs

/-- CPython int() applied to a finite float truncates toward zero; the
float num/den times the integer multiplier is (num * mult) / den. -/
def pyTruncMul (num : Int) (den : Nat) (mult : Int) : Int :=
  Int.tdiv (num * mult) (Int.ofNat den)

/-- The units dictionary of parse_size in its insertion order. -/
def sizeUnits : List (String × Int) :=
  [(("B"), 1), (("K"), 1024), (("M"), 1024 ^ 2), (("G"), 1024 ^ 3), (("T"), 1024 ^ 4)]

/-- parse_size of btrfs-manager.py: empty or literal zero gives 0; the
string is upper-cased and stripped, the first matching unit suffix is
removed and the remainder is fed to float(); a ValueError from float() or
from int(nan) is caught and yields 0, while int() of an infinite value
raises OverflowError, which the except clause (ValueError only) does not
catch. -/
def parse_size (size_str : String) : PyResult Int :=
  if size_str = ("") ∨ size_str = ("0") then .ok 0
  else
    let s := pyStrip (pyUpper size_str)
    match sizeUnits.find? (fun u => pyEndsWith s u.1) with
    | none => .ok 0
    | some u =>
      match pyFloatOfString (String.mk s.toList.dropLast) with
      | none => .ok 0
      | some (.finite num den) => .ok (pyTruncMul num den u.2)
      | some .nan => .ok 0
      | some .posInf => .raised .overflowError
      | some .negInf => .raised .overflowError

/-- JSON node of the block-device listing tool's tree output.  A field is
none when the key is absent or its JSON value is null: the code reads every
field through dict.get with a default, and no path below distinguishes the
two cases.  An absent children key behaves exactly like an empty children
array (the recursion over an empty list is a no-op), so both are the empty
list. -/
inductive DeviceNode where
  | node (name size ty mountpoint fstype model serial : Option String)
      (children : List DeviceNode)

/-- Flat device record built by extract_devices inside get_block_devices
(ty embeds the source's type field). -/
structure DevInfo where
  name : String
  size : Int
  ty : String
  mount_point : String
  fstype : String
  model : String
  serial : String
deriving DecidableEq, Repr

mutual

/-- extract_devices, effect of one node: emit the node's own record, with
the parent name concatenated in front of the node's own name, then recurse
into the children using the concatenated name as the new parent; an
exception raised by parse_size propagates. -/
def extractNode (parent : String) : DeviceNode → Except PyError (List DevInfo)
  | .node nm sz ty mp fs md sr ch =>
    match parse_size (sz.getD ("0")) with
    | .raised e => .error e
    | .ok szv =>
      let name := parent ++ nm.getD ("")
      match extractList name ch with
      | .error e => .error e
      | .ok rest =>
        .ok ({ name := name, size := szv, ty := ty.getD (""),
               mount_point := mp.getD (""), fstype := fs.getD (""),
               model := md.getD (""), serial := sr.getD ("") } :: rest)

/-- extract_devices over a sibling list, in order. -/
def extractList (parent : String) : List DeviceNode → Except PyError (List DevInfo)
  | [] => .ok []
  | d :: ds =>
    match extractNode parent d with
    | .error e => .error e
    | .ok rs =>
      match extractList parent ds with
      | .error e => .error e
      | .ok rest => .ok (rs ++ rest)

end

/-- get_block_devices after the lsblk invocation and JSON decode: flattens
the tree; any exception (in particular an uncaught OverflowError escaping
parse_size) is absorbed by the enclosing except clause, which yields the
empty list. -/
def get_block_devices (tree : List DeviceNode) : List DevInfo :=
  match extractList ("") tree with
  | .ok ds => ds
  | .error _ => []

mutual

/-- Size-string fields of every node of a device tree, in traversal
order. -/
def nodeSizes : DeviceNode → List (Option String)
  | .node _ sz _ _ _ _ _ ch => sz :: listSizes ch

/-- Size-string fields over a sibling list. -/
def listSizes : List DeviceNode → List (Option String)
  | [] => []
  | d :: ds => nodeSizes d ++ listSizes ds

end

/-- Filesystem record assembled by get_btrfs_filesystems while scanning
the listing tool's text blocks. -/
structure BtrfsFs where
  label : String
  uuid : String
  id : Nat
  devices : List String
  total_size : Int
  used : Int
  free : Int
  status : String
  mount_point : String
  mount_options : String
deriving DecidableEq, Repr

/-- State of the line scan: the completed records and the record currently
open, if any. -/
structure FsState where
  filesystems : List BtrfsFs
  current : Option BtrfsFs
deriving DecidableEq, Repr

/-- Record creation on a Label: line with at least 4 whitespace tokens:
label is the second token stripped of single quotes, uuid the fourth
token, id the number of completed records plus one.  lookup abstracts the
two nested findmnt greps of the source: it maps a uuid to the mount point
and first mount-option token (both empty when the greps fail, matching
the record's defaults). -/
def mkFsRecord (lookup : String → String × String) (count : Nat) (parts : List String) : BtrfsFs :=
  let uuid := parts.getD 3 ("")
  { label := pyStripChar '\'' (parts.getD 1 ("")), uuid := uuid, id := count + 1,
    devices := [], total_size := 0, used := 0, free := 0, status := ("active"),
    mount_point := (lookup uuid).1, mount_options := (lookup uuid).2 }

/-- One line of the get_btrfs_filesystems scan, mirroring the source's
elif chain: Label: lines (opening a record only when 4 tokens are
present), then lines beginning with Total devices:, devid or Device
location: (appended to the open record only when they contain devid),
then the devices-missing marker, then the blank-line close; any other
line is ignored. -/
def fsStep (lookup : String → String × String) (st : FsState) (raw : String) : FsState :=
  let line := pyStrip raw
  if pyStartsWith line ("Label:") then
    let parts := pySplitWs line
    if 4 ≤ parts.length then
      { filesystems := st.filesystems,
        current := some (mkFsRecord lookup st.filesystems.length parts) }
    else st
  else if pyStartsWith line ("Total devices:") || pyStartsWith line ("devid") ||
      pyStartsWith line ("Device location:") then
    match st.current with
    | some fs =>
      if pyContains line ("devid") then
        { filesystems := st.filesystems,
          current := some { fs with devices := fs.devices ++ [line] } }
      else st
    | none => st
  else if pyStartsWith line ("*** Some devices missing") then
    match st.current with
    | some fs =>
      { filesystems := st.filesystems, current := some { fs with status := ("degraded") } }
    | none => st
  else if line = ("") then
    match st.current with
    | some fs => { filesystems := st.filesystems ++ [fs], current := none }
    | none => st
  else st

/-- Trailing flush of the scan: a record still open at end of input is
appended. -/
def fsFinish (st : FsState) : List BtrfsFs :=
  match st.current with
  | some fs => st.filesystems ++ [fs]
  | none => st.filesystems

/-- Line loop of get_btrfs_filesystems over the already-split lines. -/
def parseBtrfsLines (lookup : String → String × String) (lines : List String) : List BtrfsFs :=
  fsFinish (lines.foldl (fsStep lookup) ⟨[], none⟩)

/-- get_btrfs_filesystems: empty on listing-tool failure, else the line
parse of its stdout.  The source's later per-filesystem size loop parses
usage output but never assigns any field, so total_size, used and free
remain 0 as created. -/
def get_btrfs_filesystems (lookup : String → String × String) (r : CmdResult) : List BtrfsFs :=
  if r.returncode ≠ 0 then []
  else parseBtrfsLines lookup (pySplitChar '\n' r.stdout)

/-- Transition of the filesystem-listing line algorithm as the claim words
it (with the two amendments the code forces): a Label: line with at least
4 whitespace tokens opens a record numbered completed-plus-one; a line
containing devid is appended to the open record when it begins with devid,
Total devices: or Device location:; a devices-missing line degrades the
open record; a blank line closes it; anything else is dropped. -/
def specFsStep (lookup : String → String × String) (st : FsState) (raw : String) : FsState :=
  let line := pyStrip raw
  if pyStartsWith line ("Label:") ∧ 4 ≤ (pySplitWs line).length then
    { filesystems := st.filesystems,
      current := some (mkFsRecord lookup st.filesystems.length (pySplitWs line)) }
  else if pyContains line ("devid") ∧ (pyStartsWith line ("devid") ∨
      pyStartsWith line ("Total devices:") ∨ pyStartsWith line ("Device location:")) then
    match st.current with
    | some fs =>
      { filesystems := st.filesystems,
        current := some { fs with devices := fs.devices ++ [line] } }
    | none => st
  else if pyStartsWith line ("*** Some devices missing") then
    match st.current with
    | some fs =>
      { filesystems := st.filesystems, current := some { fs with status := ("degraded") } }
    | none => st
  else if line = ("") then
    match st.current with
    | some fs => { filesystems := st.filesystems ++ [fs], current := none }
    | none => st
  else st

/-- The claim's whole line algorithm as a direct recursion over the lines,
appending any record still open at end of input. -/
def specFsParse (lookup : String → String × String) (st : FsState) : List String → List BtrfsFs
  | [] => fsFinish st
  | l :: ls => specFsParse lookup (specFsStep lookup st l) ls

/-- Per-filesystem replication-profile record of get_raid_status. -/
structure RaidInfo where
  fs : String
  data_profile : String
  metadata_profile : String
  global_reserve : Int
deriving DecidableEq, Repr

/-- Loop of get_raid_status: one entry per line containing Label: with at
least 4 whitespace tokens; the source builds this list and then discards
it. -/
def raidLoopRecords (out : String) : List RaidInfo :=
  (pySplitChar '\n' out).filterMap (fun line =>
    if pyContains line ("Label:") then
      if 4 ≤ (pySplitWs line).length then
        some { fs := (pySplitWs line).getD 3 (""), data_profile := ("single"),
               metadata_profile := ("single"), global_reserve := 0 }
      else none
    else none)

/-- get_raid_status: empty on listing-tool failure; otherwise the per-line
records are computed and dropped and a single hard-coded placeholder is
returned. -/
def get_raid_status (r : CmdResult) : List RaidInfo :=
  if r.returncode ≠ 0 then []
  else
    let _ := raidLoopRecords r.stdout
    [{ fs := ("main-filesystem"), data_profile := ("single"),
       metadata_profile := ("single"), global_reserve := 0 }]

/-- Snapshot record of get_snapshots (ty embeds the source's type
field). -/
structure Snapshot where
  id : String
  ty : String
  pre_num : Option String
  description : String
  date : String
  user_name : String
  used_space : Int
  config : String
deriving DecidableEq, Repr

/-- Per-line body of the snapshot loop of get_snapshots, with the
source's conditional chain kept as written (the inner length guards are
redundant under the six-field check). -/
def snapLineSource (config : String) (snap_line : String) : Option Snapshot :=
  let parts := pySplitChar '|' (pyStrip snap_line)
  if 6 ≤ parts.length then
    let pre0 := pyStrip (parts.getD 2 (""))
    some { id := pyStrip (parts.getD 0 ("")), ty := pyStrip (parts.getD 1 ("")),
           pre_num := if pre0 ≠ ("-") then some pre0 else none,
           description := if 5 < parts.length then pyStrip (parts.getD 5 ("")) else (""),
           date := if 3 < parts.length then pyStrip (parts.getD 3 ("")) else (""),
           user_name := if 4 < parts.length then pyStrip (parts.getD 4 ("")) else (""),
           used_space := 0, config := config }
  else none

/-- Per-configuration snapshot parsing of get_snapshots: drop the header
line of the listing text, then extract per line. -/
def get_snapshots_of_config (config : String) (snaps_output : String) : List Snapshot :=
  ((pySplitChar '\n' snaps_output).drop 1).filterMap (snapLineSource config)

/-- The claim's per-line mapping, written from its words: split the line
on pipes, require at least six fields, and take id, type, pre-number
(absent on the literal dash), date, user and description from fields one
to six, each as its trimmed field text. -/
def snapLineSpec (config : String) (line : String) : Option Snapshot :=
  let fields := pySplitChar '|' (pyStrip line)
  if fields.length < 6 then none
  else
    some { id := pyStrip (fields.getD 0 ("")), ty := pyStrip (fields.getD 1 ("")),
           pre_num := if pyStrip (fields.getD 2 ("")) = ("-") then none
             else some (pyStrip (fields.getD 2 (""))),
           description := pyStrip (fields.getD 5 ("")),
           date := pyStrip (fields.getD 3 ("")), user_name := pyStrip (fields.getD 4 ("")),
           used_space := 0, config := config }

/-- The claim's whole-text snapshot algorithm: skip the header line, map
the remaining lines through the field extraction. -/
def snapParseSpec (config : String) (text : String) : List Snapshot :=
  ((pySplitChar '\n' text).drop 1).filterMap (snapLineSpec config)

/-- Response of an API action: a success message or an error status with
its text. -/
inductive ApiResponse where
  | ok (message : String)
  | err (status : Nat) (error : String)
deriving DecidableEq, Repr

/-- The fixed profile enumeration accepted by api_change_raid. -/
def valid_profiles : List String :=
  [("single"), ("raid0"), ("raid1"), ("raid5"), ("raid6"), ("raid10")]

/-- Primary resize-based command of api_change_raid, as its argument
vector. -/
def resizeCmd (profile filesystem : String) : List String :=
  [("btrfs"), ("filesystem"), ("resize"), profile ++ (":"), filesystem]

/-- Fallback balance-based convert command of api_change_raid. -/
def balanceCmd (profile filesystem : String) : List String :=
  [("btrfs"), ("balance"), ("start"), ("-dconvert=") ++ profile,
   ("-mconvert=") ++ profile, filesystem]

/-- api_change_raid: reject an unknown profile with 400; run the resize
form; on its non-zero exit run the balance convert form; report 500,
carrying both stderr texts, only when both fail.  exec maps a command's
argument vector to the result of running it. -/
def api_change_raid (exec : List String → CmdResult) (filesystem profile : String) : ApiResponse :=
  if profile ∉ valid_profiles then .err 400 (("Invalid RAID profile: ") ++ profile)
  else
    let result := exec (resizeCmd profile filesystem)
    if result.returncode = 0 then
      .ok (("Successfully changed RAID profile to ") ++ profile)
    else
      let result_alt := exec (balanceCmd profile filesystem)
      if result_alt.returncode = 0 then
        .ok (("Successfully started RAID conversion to ") ++ profile)
      else
        .err 500 ((("RAID change failed: ") ++ result.stderr) ++
          (("\nAlternative: ") ++ result_alt.stderr))

/-- Observable host side effects of api_mount after the blkid lookup. -/
inductive MountEffect where
  | makedirs (path : String)
  | mountCmd (device mount_point : String)
deriving DecidableEq, Repr

/-- api_mount: resolve the uuid to a device path via blkid (its stripped
stdout); an empty resolution answers 404 before any directory creation or
mount invocation; otherwise the mount-point directory is created and
mount is run, and the response follows its exit status.  The list is the
trace of side effects performed. -/
def api_mount (blkid : CmdResult) (mountRes : CmdResult) (uuid : String) : ApiResponse × List MountEffect :=
  let device_path := pyStrip blkid.stdout
  if device_path = ("") then
    (.err 404 ((("Device with UUID ") ++ uuid) ++ (" not found")), [])
  else
    let mount_point := ("/mnt/btrfs_") ++ pyTake 8 uuid
    if mountRes.returncode = 0 then
      (.ok ((("Successfully mounted ") ++ device_path) ++ ((" to ") ++ mount_point)),
       [.makedirs mount_point, .mountCmd device_path mount_point])
    else
      (.err 500 (("Mount failed: ") ++ mountRes.stderr),
       [.makedirs mount_point, .mountCmd device_path mount_point])

/-- Mount lookup in which no filesystem is mounted; used for the concrete
parses (both findmnt greps fail, so mount point and options are empty). -/
def noMounts : String → String × String :=
  fun _ => ((""), (""))

/-- Executor of the fallback scenario: the resize form of the raid1 change
on /mnt/pool exits 1, every other command exits 0. -/
def fallbackExec : List String → CmdResult :=
  fun cmd =>
    if cmd = resizeCmd ("raid1") ("/mnt/pool") then ⟨1, (""), ("resize failed")⟩
    else ⟨0, (""), ("")⟩

/-- The device tree sda with one child partition, the child's name field
holding the full kernel name sda1, as the block-device listing tool
reports partitions. -/
def sdaTree : List DeviceNode :=
  [.node (some ("sda")) (some ("1G")) (some ("disk")) none none none none
    [.node (some ("sda1")) (some ("10M")) (some ("part")) (some ("/mnt"))
      (some ("btrfs")) (some ("mdl")) (some ("srl")) []]]

/-- Decidable per-node size condition: the node's size string (default
literal zero when absent) does not parse to a negative value; a parse that
raises is acceptable because the enclosing collection then returns no
records at all. -/
def sizeOkNonneg (sz : Option String) : Bool :=
  match parse_size (sz.getD ("0")) with
  | .ok k => decide (0 ≤ k)
  | .raised _ => true

/-- The two-block filesystem listing of the claims: two Label: blocks
separated by a blank line, the second degraded. -/
def twoBlockLines : List String :=
  [("Label: 'alpha' uuid: 1111-2222"), ("devid 1 size 1G path /dev/sda1"), (""),
   ("Label: 'beta' uuid: 3333-4444"), ("devid 2 size 2G path /dev/sdb1"),
   ("*** Some devices missing"), ("")]

/-- Two nonempty patterns with different first characters are never both
prefixes of the same character list. -/
theorem isPrefixOf_head_ne {c d : Char} {p q t : List Char} (hcd : c ≠ d)
    (hc : List.isPrefixOf (c :: p) t = true) : List.isPrefixOf (d :: q) t = false := by
  cases t with
  | nil => simp at hc
  | cons x xs =>
    rw [List.isPrefixOf_cons₂] at hc ⊢
    rw [Bool.and_eq_true, beq_iff_eq] at hc
    rcases hc with ⟨rfl, -⟩
    have hdc : (d == c) = false := beq_eq_false_iff_ne.mpr (Ne.symm hcd)
    simp [hdc]

/-- A pattern that is a prefix of a list also occurs inside it. -/
theorem listContainsAux_of_isPrefixOf {pat t : List Char}
    (h : List.isPrefixOf pat t = true) : listContainsAux pat t = true := by
  cases t with
  | nil => simpa [listContainsAux] using h
  | cons c cs => simp [listContainsAux, h]

/-- C2 counterexample: run_command maps a successful invocation whose
stdout reads "Error: x" and a failed invocation with stderr "x" to the
same returned string, so the returned result does not let the caller
distinguish a failed invocation from a successful one, and no exit status
is part of the result. -/
theorem c2_run_command_counterexample :
    run_command ⟨0, ("Error: x"), ("")⟩ = run_command ⟨1, (""), ("x")⟩ ∧
    (CmdResult.mk 0 ("Error: x") ("")).returncode = 0 ∧
    (CmdResult.mk 1 ("") ("x")).returncode ≠ 0 := by
  decide

/-- C2 amended: the executor captures exit status, stdout and stderr at
the subprocess level and never raises on a non-zero exit (the
CalledProcessError is caught); but the caller receives only a string —
stripped stdout on exit zero, "Error: " followed by stderr otherwise —
so the exit status itself is not returned and failure is not in general
distinguishable from success. -/
theorem c2_run_command_amended (r : CmdResult) :
    (r.returncode = 0 → subprocessRunCheck r = .ok r ∧ run_command r = pyStrip r.stdout) ∧
    (r.returncode ≠ 0 →
      subprocessRunCheck r = .error ⟨r.returncode, r.stdout, r.stderr⟩ ∧
      run_command r = ("Error: ") ++ r.stderr) ∧
    (∃ good bad : CmdResult, good.returncode = 0 ∧ bad.returncode ≠ 0 ∧
      run_command good = run_command bad) := by
  refine ⟨fun h => ?_, fun h => ?_,
    ⟨⟨0, ("Error: x"), ("")⟩, ⟨1, (""), ("x")⟩, by decide⟩⟩
  · exact ⟨by simp [subprocessRunCheck, h], by simp [run_command, subprocessRunCheck, h]⟩
  · exact ⟨by simp [subprocessRunCheck, h], by simp [run_command, subprocessRunCheck, h]⟩

/-- C2 witness: the amended theorem applied to one successful and one
failed invocation. -/
theorem c2_run_command_amended_witness :
    run_command ⟨0, (" out "), ("e")⟩ = pyStrip (" out ") ∧
    run_command ⟨1, ("o"), ("boom")⟩ = ("Error: ") ++ ("boom") :=
  ⟨((c2_run_command_amended ⟨0, (" out "), ("e")⟩).1 (by decide)).2,
   ((c2_run_command_amended ⟨1, ("o"), ("boom")⟩).2.1 (by decide)).2⟩

/-- C4: a mount request whose UUID lookup yields an empty device path is
answered with the 404 not-found error and its descriptive message, and
neither the mount-point directory creation nor the mount command is
performed: the side-effect trace is empty. -/
theorem c4_mount_unresolved_uuid (blkid mountRes : CmdResult) (uuid : String)
    (h : pyStrip blkid.stdout = ("")) :
    api_mount blkid mountRes uuid =
      (.err 404 ((("Device with UUID ") ++ uuid) ++ (" not found")), []) := by
  simp [api_mount, h]

/-- C4 witness: blkid answering only whitespace resolves to the empty
device path, and the action reports 404 with no side effects. -/
theorem c4_mount_unresolved_uuid_witness :
    api_mount ⟨0, ("  "), ("")⟩ ⟨0, (""), ("")⟩ ("abcd1234-xyz") =
      (.err 404 ((("Device with UUID ") ++ ("abcd1234-xyz")) ++ (" not found")), []) :=
  c4_mount_unresolved_uuid ⟨0, ("  "), ("")⟩ ⟨0, (""), ("")⟩ ("abcd1234-xyz") (by decide)

/-- C5: the embedded parse_size, evaluated at the failing input "infG",
raises OverflowError — int() of an infinite float, which the source's
except clause (ValueError only) does not catch — contradicting the
claim's guarantee that parsing never raises; the remaining conjuncts
confirm the claimed values on the specified inputs. -/
theorem c5_parse_size_overflow_bug :
    parse_size ("infG") = .raised .overflowError ∧
    parse_size ("1.5G") = .ok 1610612736 ∧
    parse_size ("") = .ok 0 ∧
    parse_size ("0") = .ok 0 ∧
    parse_size ("abcG") = .ok 0 ∧
    parse_size ("10") = .ok 0 := by
  decide

/-- C8: whenever the listing tool exits zero, the RAID collector returns
exactly the single synthetic placeholder record, whatever text (and so
whatever filesystem count and UUIDs) the tool printed. -/
theorem c8_raid_placeholder (out err : String) :
    get_raid_status ⟨0, out, err⟩ =
      [{ fs := ("main-filesystem"), data_profile := ("single"),
         metadata_profile := ("single"), global_reserve := 0 }] := by
  simp [get_raid_status]

/-- C1: for a valid profile, if the primary resize command exits non-zero
and the fallback balance convert exits zero, the action answers the
success message that names the conversion path, and no error; an error is
produced only when both commands exit non-zero, and it is a 500 carrying
both commands' stderr texts. -/
theorem c1_change_raid_fallback (exec : List String → CmdResult) (filesystem profile : String)
    (hp : profile ∈ valid_profiles) :
    ((exec (resizeCmd profile filesystem)).returncode ≠ 0 →
      (exec (balanceCmd profile filesystem)).returncode = 0 →
      api_change_raid exec filesystem profile =
        .ok (("Successfully started RAID conversion to ") ++ profile)) ∧
    (∀ status etext, api_change_raid exec filesystem profile = .err status etext →
      (exec (resizeCmd profile filesystem)).returncode ≠ 0 ∧
      (exec (balanceCmd profile filesystem)).returncode ≠ 0 ∧
      status = 500 ∧
      etext = (("RAID change failed: ") ++ (exec (resizeCmd profile filesystem)).stderr) ++
        (("\nAlternative: ") ++ (exec (balanceCmd profile filesystem)).stderr)) := by
  constructor
  · intro h1 h2
    simp [api_change_raid, hp, h1, h2]
  · intro status etext h
    by_cases h1 : (exec (resizeCmd profile filesystem)).returncode = 0
    · simp [api_change_raid, hp, h1] at h
    · by_cases h2 : (exec (balanceCmd profile filesystem)).returncode = 0
      · simp [api_change_raid, hp, h1, h2] at h
      · simp [api_change_raid, hp, h1, h2] at h
        exact ⟨h1, h2, h.1.symm, h.2.symm⟩

/-- C1 witness: under the executor whose resize form fails and whose
balance form succeeds, the action answers the conversion-path success
message. -/
theorem c1_change_raid_fallback_witness :
    api_change_raid fallbackExec ("/mnt/pool") ("raid1") =
      .ok (("Successfully started RAID conversion to ") ++ ("raid1")) :=
  (c1_change_raid_fallback fallbackExec ("/mnt/pool") ("raid1") (by decide)).1
    (by decide) (by decide)

/-- C6 counterexample: on the tree sda{children:[sda1]}, with the child
node's name field holding the full kernel name sda1 as the listing tool
reports it, the flattening emits the names sda and sdasda1 — the parent
name concatenated with the child's full name — so no record named sda1
exists, contrary to the claim. -/
theorem c6_flatten_counterexample :
    (get_block_devices sdaTree).map DevInfo.name = [("sda"), ("sdasda1")] ∧
    ¬ (("sda1") ∈ (get_block_devices sdaTree).map DevInfo.name) := by
  decide

/-- C6 amended: flattening is the depth-first traversal that emits each
node before its children and names a child record by concatenating the
(already concatenated) parent name with the child's own name field; so
the tree sda{children:[sda1]} yields records sda then sdasda1, the child
record keeping its own size, type, mountpoint, fstype, model and serial
fields intact (the names sda and sda1 would result only from a child
node whose name field is the bare suffix 1). -/
theorem c6_flatten_amended (n1 n2 ty1 ty2 mp2 fs2 md2 sr2 : String) :
    get_block_devices [.node (some n1) none (some ty1) none none none none
        [.node (some n2) none (some ty2) (some mp2) (some fs2) (some md2) (some sr2) []]] =
      [{ name := n1, size := 0, ty := ty1, mount_point := (""), fstype := (""),
         model := (""), serial := ("") },
       { name := n1 ++ n2, size := 0, ty := ty2, mount_point := mp2, fstype := fs2,
         model := md2, serial := sr2 }] ∧
    get_block_devices sdaTree =
      [{ name := ("sda"), size := 1073741824, ty := ("disk"), mount_point := (""),
         fstype := (""), model := (""), serial := ("") },
       { name := ("sdasda1"), size := 10485760, ty := ("part"), mount_point := ("/mnt"),
         fstype := ("btrfs"), model := ("mdl"), serial := ("srl") }] := by
  exact ⟨rfl, by decide⟩

/-- C9 counterexample: a tree whose single node carries the size string
-1G flattens to a record of negative size, contradicting non-negativity
over arbitrary size strings. -/
theorem c9_size_nonneg_counterexample :
    (get_block_devices
        [.node (some ("sda")) (some ("-1G")) (some ("disk")) none none none none []]).map
      DevInfo.size = [(-1073741824 : Int)] ∧ (-1073741824 : Int) < 0 := by
  decide

/-- The scan step ignores a Label: line carrying fewer than four
whitespace tokens: the state is unchanged. -/
theorem fsStep_short_label (lookup : String → String × String) (st : FsState) (raw : String)
    (hL : pyStartsWith (pyStrip raw) ("Label:") = true)
    (hlen : (pySplitWs (pyStrip raw)).length < 4) :
    fsStep lookup st raw = st := by
  have h4 : ¬ (4 ≤ (pySplitWs (pyStrip raw)).length) := by omega
  simp [fsStep, hL, h4]

/-- C10: a Label: line with fewer than four whitespace tokens neither
opens nor closes a record — removing it from the input leaves the whole
parse unchanged, so a previously open record stays current, subsequent
devid, devices-missing and blank lines still apply to it, and the
truncated line itself is silently dropped. -/
theorem c10_truncated_label_dropped (lookup : String → String × String)
    (pre post : List String) (l : String)
    (hL : pyStartsWith (pyStrip l) ("Label:") = true)
    (hlen : (pySplitWs (pyStrip l)).length < 4) :
    parseBtrfsLines lookup (pre ++ l :: post) = parseBtrfsLines lookup (pre ++ post) := by
  unfold parseBtrfsLines
  rw [List.foldl_append, List.foldl_append, List.foldl_cons,
    fsStep_short_label lookup _ l hL hlen]

/-- C10 witness: dropping the truncated line Label: x between an open
block and its devid line leaves the parse unchanged. -/
theorem c10_truncated_label_dropped_witness :
    pyStartsWith (pyStrip ("Label: x")) ("Label:") = true ∧
    (pySplitWs (pyStrip ("Label: x"))).length < 4 ∧
    parseBtrfsLines noMounts
        ([("Label: 'a' uuid: U-1")] ++ ("Label: x") :: [("devid 9"), ("")]) =
      parseBtrfsLines noMounts ([("Label: 'a' uuid: U-1")] ++ [("devid 9"), ("")]) :=
  ⟨by decide, by decide,
   c10_truncated_label_dropped noMounts [("Label: 'a' uuid: U-1")] [("devid 9"), ("")]
     ("Label: x") (by decide) (by decide)⟩

/-- A string starting with Label: is not the empty string. -/
theorem ne_empty_of_label {l : String} (h : pyStartsWith l ("Label:") = true) :
    ¬ (l = ("")) := by
  intro he
  rw [he] at h
  exact absurd h (by decide)

/-- The claim's transition and the source's transition agree on every
state and line. -/
theorem specFsStep_eq_fsStep (lookup : String → String × String) (st : FsState) (raw : String) :
    specFsStep lookup st raw = fsStep lookup st raw := by
  unfold specFsStep fsStep
  by_cases hLa : pyStartsWith (pyStrip raw) ("Label:") = true
  · have hd : pyStartsWith (pyStrip raw) ("devid") = false :=
      isPrefixOf_head_ne (by decide) hLa
    have htd : pyStartsWith (pyStrip raw) ("Total devices:") = false :=
      isPrefixOf_head_ne (by decide) hLa
    have hdl : pyStartsWith (pyStrip raw) ("Device location:") = false :=
      isPrefixOf_head_ne (by decide) hLa
    have hstar : pyStartsWith (pyStrip raw) ("*** Some devices missing") = false :=
      isPrefixOf_head_ne (by decide) hLa
    have hne := ne_empty_of_label hLa
    by_cases h4 : 4 ≤ (pySplitWs (pyStrip raw)).length
    · simp [hLa, h4]
    · simp [hLa, h4, hd, htd, hdl, hstar, hne]
  · by_cases hd : pyStartsWith (pyStrip raw) ("devid") = true
    · have hC : pyContains (pyStrip raw) ("devid") = true :=
        listContainsAux_of_isPrefixOf hd
      have htd : pyStartsWith (pyStrip raw) ("Total devices:") = false :=
        isPrefixOf_head_ne (by decide) hd
      have hdl : pyStartsWith (pyStrip raw) ("Device location:") = false :=
        isPrefixOf_head_ne (by decide) hd
      cases hcur : st.current <;> simp [hLa, hd, hC, htd, hdl, hcur]
    · by_cases htd : pyStartsWith (pyStrip raw) ("Total devices:") = true
      · have hstar : pyStartsWith (pyStrip raw) ("*** Some devices missing") = false :=
          isPrefixOf_head_ne (by decide) htd
        have hne : ¬ (pyStrip raw = ("")) := by
          intro he
          rw [he] at htd
          exact absurd htd (by decide)
        by_cases hC : pyContains (pyStrip raw) ("devid") = true
        · cases hcur : st.current <;> simp [hLa, hd, htd, hC, hcur]
        · cases hcur : st.current <;> simp [hLa, hd, htd, hC, hcur, hstar, hne]
      · by_cases hdl : pyStartsWith (pyStrip raw) ("Device location:") = true
        · have hstar : pyStartsWith (pyStrip raw) ("*** Some devices missing") = false :=
            isPrefixOf_head_ne (by decide) hdl
          have hne : ¬ (pyStrip raw = ("")) := by
            intro he
            rw [he] at hdl
            exact absurd hdl (by decide)
          by_cases hC : pyContains (pyStrip raw) ("devid") = true
          · cases hcur : st.current <;> simp [hLa, hd, htd, hdl, hC, hcur]
          · cases hcur : st.current <;> simp [hLa, hd, htd, hdl, hC, hcur, hstar, hne]
        · simp [hLa, hd, htd, hdl]

/-- The claim's direct recursion equals the fold of the source's step
from any starting state. -/
theorem specFsParse_foldl (lookup : String → String × String) (lines : List String) :
    ∀ st : FsState, specFsParse lookup st lines = fsFinish (lines.foldl (fsStep lookup) st) := by
  induction lines with
  | nil => intro st; rfl
  | cons l ls ih =>
    intro st
    rw [specFsParse, specFsStep_eq_fsStep, List.foldl_cons]
    exact ih (fsStep lookup st l)

/-- C3 counterexample: two concrete inputs refute the claim's line
algorithm as stated.  A Label: line with fewer than four whitespace
tokens opens no record, so nothing is flushed at end of input although
the claim requires one record; and a line that contains devid without
beginning with devid, Total devices: or Device location: is not appended
to the open record's device list although the claim requires it. -/
theorem c3_fs_parse_counterexample :
    parseBtrfsLines noMounts [("Label: x"), ("")] = [] ∧
    pyStartsWith (pyStrip ("Label: x")) ("Label:") = true ∧
    (parseBtrfsLines noMounts
        [("Label: 'a' uuid: U-1"), ("foo devid 1"), ("")]).map BtrfsFs.devices = [[]] ∧
    pyContains (pyStrip ("foo devid 1")) ("devid") = true := by
  decide

/-- C3 amended: the block parser implements the claimed line algorithm
with the two corrections the code forces — a Label: line opens a record
(id = completed count + 1) only when it carries at least four whitespace
tokens, and a trimmed line joins the open record's device list exactly
when it contains devid and begins with devid, Total devices: or Device
location: — with the blank-line close, the devices-missing degradation
and the end-of-input flush as claimed.  In particular the two-block
listing parses to exactly two records with ids 1 and 2 and independent
one-line device lists, the second degraded. -/
theorem c3_fs_parse_amended (lookup : String → String × String) (lines : List String) :
    parseBtrfsLines lookup lines = specFsParse lookup ⟨[], none⟩ lines ∧
    parseBtrfsLines noMounts twoBlockLines =
      [{ label := ("alpha"), uuid := ("1111-2222"), id := 1,
         devices := [("devid 1 size 1G path /dev/sda1")], total_size := 0, used := 0,
         free := 0, status := ("active"), mount_point := (""), mount_options := ("") },
       { label := ("beta"), uuid := ("3333-4444"), id := 2,
         devices := [("devid 2 size 2G path /dev/sdb1")], total_size := 0, used := 0,
         free := 0, status := ("degraded"), mount_point := (""), mount_options := ("") }] :=
  ⟨(specFsParse_foldl lookup lines ⟨[], none⟩).symm, by decide⟩

/-- The source's per-line snapshot extraction (with its redundant inner
length guards) equals the claim's per-line field mapping. -/
theorem snapLine_eq (config line : String) :
    snapLineSource config line = snapLineSpec config line := by
  unfold snapLineSource snapLineSpec
  by_cases h : 6 ≤ (pySplitChar '|' (pyStrip line)).length
  · have h3 : 3 < (pySplitChar '|' (pyStrip line)).length := by omega
    have h4 : 4 < (pySplitChar '|' (pyStrip line)).length := by omega
    have h5 : 5 < (pySplitChar '|' (pyStrip line)).length := by omega
    have h6 : ¬ ((pySplitChar '|' (pyStrip line)).length < 6) := by omega
    by_cases hp : pyStrip ((pySplitChar '|' (pyStrip line)).getD 2 ("")) = ("-")
    · simp [h, h3, h4, h5, h6, hp]
    · simp [h, h3, h4, h5, h6, hp]
  · have h6 : (pySplitChar '|' (pyStrip line)).length < 6 := by omega
    simp [h, h6]

/-- C7: the per-configuration snapshot parser implements the claimed
algorithm — skip the header line, split each remaining line on pipes,
emit only lines with at least six fields, mapped as id, type, pre-number
(absent on the literal dash), date, user and description in field order
one to six — and the claim's single data line yields exactly one
Snapshot with an absent pre-number. -/
theorem c7_snapshot_parse (config text : String) :
    get_snapshots_of_config config text = snapParseSpec config text ∧
    get_snapshots_of_config ("root")
        ("Type | # | Pre # | Date | User | Description\n1|single|-|2024-01-01|root|init snapshot") =
      [{ id := ("1"), ty := ("single"), pre_num := none,
         description := ("init snapshot"), date := ("2024-01-01"),
         user_name := ("root"), used_space := 0, config := ("root") }] := by
  constructor
  · unfold get_snapshots_of_config snapParseSpec
    congr 1
    funext l
    exact snapLine_eq config l
  · decide

mutual

/-- Every record emitted for one node owes its size to the size string of
some node of that subtree. -/
theorem extractNode_size_mem : ∀ (parent : String) (d : DeviceNode) (rs : List DevInfo),
    extractNode parent d = .ok rs →
    ∀ r ∈ rs, ∃ sz ∈ nodeSizes d, parse_size (sz.getD ("0")) = .ok r.size
  | parent, .node nm sz ty mp fs md sr ch, rs, h => by
    simp only [extractNode] at h
    split at h
    · exact absurd h (by simp)
    · rename_i szv hps
      split at h
      · exact absurd h (by simp)
      · rename_i rest hch
        rw [Except.ok.injEq] at h
        subst h
        intro r hr
        rcases List.mem_cons.mp hr with hre | hrt
        · refine ⟨sz, by simp [nodeSizes], ?_⟩
          rw [hps, hre]
        · obtain ⟨sz2, hmem, hps2⟩ :=
            extractList_size_mem (parent ++ nm.getD ("")) ch rest hch r hrt
          exact ⟨sz2, by simp [nodeSizes, hmem], hps2⟩

/-- Every record emitted for a sibling list owes its size to the size
string of some node of the forest. -/
theorem extractList_size_mem : ∀ (parent : String) (ds : List DeviceNode) (rs : List DevInfo),
    extractList parent ds = .ok rs →
    ∀ r ∈ rs, ∃ sz ∈ listSizes ds, parse_size (sz.getD ("0")) = .ok r.size
  | parent, [], rs, h => by
    simp only [extractList] at h
    rw [Except.ok.injEq] at h
    subst h
    intro r hr
    exact absurd hr (by simp)
  | parent, d :: ds, rs, h => by
    simp only [extractList] at h
    split at h
    · exact absurd h (by simp)
    · rename_i rs1 hd
      split at h
      · exact absurd h (by simp)
      · rename_i rest hds
        rw [Except.ok.injEq] at h
        subst h
        intro r hr
        rcases List.mem_append.mp hr with h1 | h2
        · obtain ⟨sz, hmem, hps⟩ := extractNode_size_mem parent d rs1 hd r h1
          exact ⟨sz, by simp [listSizes, hmem], hps⟩
        · obtain ⟨sz, hmem, hps⟩ := extractList_size_mem parent ds rest hds r h2
          exact ⟨sz, by simp [listSizes, hmem], hps⟩

end

/-- C9 amended: for every device tree in which no node's size string
parses to a negative value (failures and raised exceptions permitted),
every record the inventory collector emits has non-negative size.  As
stated over arbitrary size strings the claim fails: a size string with a
negative numeric portion yields a record of negative size. -/
theorem c9_size_nonneg_amended (tree : List DeviceNode)
    (h : ∀ sz ∈ listSizes tree, sizeOkNonneg sz = true) :
    ∀ d ∈ get_block_devices tree, 0 ≤ d.size := by
  intro d hd
  cases hex : extractList ("") tree with
  | error e =>
    simp only [get_block_devices, hex] at hd
    exact absurd hd (by simp)
  | ok rs =>
    simp only [get_block_devices, hex] at hd
    obtain ⟨sz, hmem, hps⟩ := extractList_size_mem ("") tree rs hex d hd
    have h2 := h sz hmem
    simp only [sizeOkNonneg, hps] at h2
    exact of_decide_eq_true h2

/-- C9 witness: the amended theorem applied to the sda tree, whose size
strings 1G and 10M are non-negative, at the record the tree's root
emits. -/
theorem c9_size_nonneg_amended_witness :
    0 ≤ (DevInfo.mk ("sda") 1073741824 ("disk") ("") ("") ("") ("")).size :=
  c9_size_nonneg_amended sdaTree (by decide)
    (DevInfo.mk ("sda") 1073741824 ("disk") ("") ("") ("") ("")) (by decide)
